import Mathlib

/-!
Shallow embedding of the ZocDoc appointment scraper
(`ZocDoc/zocdoc_scraper_production.py`) and proofs of the specification
claims about it.

The embedding models:
* the appointment record built in `_extract_appointments_from_modal`,
* the modal extraction loop over timeslot elements,
* the modal container lookup and "show more" merge of `_process_modal`,
* the catch-all error boundary of `_process_modal` and the trigger loop,
* the cleaned-export deduplication of `_save_results`,
* the retry executor `_retry_with_backoff` with its sleeps and retry metric,
* the proxy configuration `_get_proxy_config` and the proxy-attempt loop
  of `run`.

Stateful Python (the mutable `self.metrics`, `self.appointments`) is
modelled by explicit state passing; exceptions are modelled with
`Except`; `time.sleep` calls are recorded in an explicit list of delays.
-/

namespace ZocDoc

/-- One appointment dictionary, as built at lines 502-508 of
`_extract_appointments_from_modal`. -/
structure Appointment where
  doctor : String
  date : String
  time : String
  datetime : String
  scraped_at : String
deriving DecidableEq, Repr

/-- Removal of leading and trailing whitespace from a character list. -/
def stripChars (l : List Char) : List Char :=
  ((l.dropWhile Char.isWhitespace).reverse.dropWhile Char.isWhitespace).reverse

/-- The text of an element as `get_text(strip=True)` returns it:
Python string stripping, removing leading and trailing whitespace. -/
def strip (s : String) : String :=
  ⟨stripChars s.data⟩

/-- A timeslot anchor element (`a[data-test="availability-modal-timeslot"]`)
together with the ancestor information the extractor queries:
`dateWrapper = none` models a timeslot with no ancestor
`availability-modal-content-date-wrapper`; `some none` models a wrapper
without a `day-title` child; `some (some s)` a wrapper whose `day-title`
child has raw text `s`.  `rawText` is the element's own raw text;
`get_text(strip=True)` is modelled by `strip`. -/
structure Timeslot where
  rawText : String
  dateWrapper : Option (Option String)
deriving DecidableEq, Repr

/-- The per-timeslot body of the loop in `_extract_appointments_from_modal`
(lines 490-511): trimmed time text, date text from the ancestor wrapper's
day-title (or the sentinel `"Unknown Date"`), and the composite
`datetime = f"{date_text} {time_text}"`. -/
def buildAppointment (doctor now : String) (t : Timeslot) : Appointment :=
  let time_text := strip t.rawText
  let date_text :=
    match t.dateWrapper with
    | none => "Unknown Date"
    | some none => "Unknown Date"
    | some (some s) => strip s
  { doctor := doctor
    date := date_text
    time := time_text
    datetime := date_text ++ " " ++ time_text
    scraped_at := now }

/-- The extraction routine `_extract_appointments_from_modal`
(lines 477-517): if no timeslot
elements are found return `[]`, otherwise build one appointment per
timeslot element, in document order.  The code has no emptiness check on
the trimmed time text: every element yields an appointment. -/
def extract_appointments_from_modal (doctor now : String)
    (slots : List Timeslot) : List Appointment :=
  if slots.length = 0 then []
  else slots.map (buildAppointment doctor now)

/-- The dedup key used both by the "show more" merge and by the cleaned
export: the pair of the date field and the time field of the
appointment dict. -/
def key (a : Appointment) : String × String := (a.date, a.time)

/-- The "show more" merge loop of `_process_modal` (lines 597-603): walk
the second batch in order and append each entry whose key is absent from
`existing`; `existing` is computed once from the first batch and never
updated inside the loop. -/
def dedupAppend (existing : List (String × String))
    (acc : List Appointment) : List Appointment → List Appointment
  | [] => acc
  | apt :: rest =>
    if key apt ∈ existing then dedupAppend existing acc rest
    else dedupAppend existing (acc ++ [apt]) rest

/-- The merge of the initial batch with the post-"show more" batch
(lines 596-603): existing is the set of (date, time) pairs of the
first batch,
then append the non-duplicate new appointments. -/
def mergeShowMore (appointments newAppointments : List Appointment) :
    List Appointment :=
  dedupAppend (appointments.map key) appointments newAppointments

/-- The cleaned-export deduplication of `_save_results` (line 689):
`df.drop_duplicates` on the date and time columns keeps the first row
for each
`(date, time)` key, in original order.  Modelled as a single pass that
records the keys already seen. -/
def dropDuplicatesGo (seen : List (String × String)) :
    List Appointment → List Appointment
  | [] => []
  | a :: rest =>
    if key a ∈ seen then dropDuplicatesGo seen rest
    else a :: dropDuplicatesGo (key a :: seen) rest

/-- The cleaned export view: first-seen-wins deduplication on
`(date, time)`. -/
def cleanedView (apts : List Appointment) : List Appointment :=
  dropDuplicatesGo [] apts

/-- The scraper's exception hierarchy (lines 151-178), as a tagged error
kind carrying the message. -/
inductive ScraperError where
  | proxyConnectionError : String → ScraperError
  | pageLoadError : String → ScraperError
  | doctorSelectionError : String → ScraperError
  | modalNotFoundError : String → ScraperError
  | dataExtractionError : String → ScraperError
  | otherError : String → ScraperError
deriving DecidableEq, Repr

/-- The Python class name of an error, as produced by
`type(final_error).__name__` in the failure result (line 847). -/
def ScraperError.typeName : ScraperError → String
  | .proxyConnectionError _ => "ProxyConnectionError"
  | .pageLoadError _ => "PageLoadError"
  | .doctorSelectionError _ => "DoctorSelectionError"
  | .modalNotFoundError _ => "ModalNotFoundError"
  | .dataExtractionError _ => "DataExtractionError"
  | .otherError _ => "Exception"

/-- A parsed page snapshot as `_process_modal` queries it (lines 560-575):
the optional `availability-modal-view-container` element, the optional
`modal-content` fallback element (each carrying its timeslot elements),
whether the raw HTML contains the timeslot marker string anywhere, and
the timeslot elements of the whole page (used when the whole soup is
treated as the container). -/
structure PageSnapshot where
  viewContainer : Option (List Timeslot)
  modalContent : Option (List Timeslot)
  hasTimeslotMarker : Bool
  pageSlots : List Timeslot
deriving DecidableEq, Repr

/-- The modal-container lookup of `_process_modal` (lines 564-575): try
the primary container, then the `modal-content` fallback, then — if the
timeslot marker is textually present in the page HTML — the whole page;
otherwise raise `ModalNotFoundError`. -/
def findContainerSlots (p : PageSnapshot) : Except ScraperError (List Timeslot) :=
  match p.viewContainer with
  | some slots => .ok slots
  | none =>
    match p.modalContent with
    | some slots => .ok slots
    | none =>
      if p.hasTimeslotMarker then .ok p.pageSlots
      else .error (.modalNotFoundError "Modal container not found in page")

/-- The environment one `_process_modal` call observes: the snapshot of
the page after the modal opened, whether the "Show more availability"
button is visible, and the snapshot re-parsed after clicking it (only
consulted when the button is visible). -/
structure ModalEnv where
  firstPage : PageSnapshot
  showMoreVisible : Bool
  secondPage : PageSnapshot
deriving DecidableEq, Repr

/-- The body of `_process_modal` (lines 534-621), up to but not including
its catch-all handler: locate the container, extract the initial batch,
and — when the "show more" button is visible and the re-parsed page has a
primary container — extract the second batch and merge it through the
`(date, time)` key set of the initial batch. -/
def process_modal_body (doctor now : String) (env : ModalEnv) :
    Except ScraperError (List Appointment) :=
  match findContainerSlots env.firstPage with
  | .error e => .error e
  | .ok slots =>
    let appointments := extract_appointments_from_modal doctor now slots
    let appointments :=
      if env.showMoreVisible then
        match env.secondPage.viewContainer with
        | some slots2 =>
          mergeShowMore appointments (extract_appointments_from_modal doctor now slots2)
        | none => appointments
      else appointments
    .ok appointments

/-- The function `_process_modal` as seen by its callers, with the
catch-all handler of
lines 623-626: any exception raised in the body increments the error
metric and turns into an empty appointment list.  The second component is
the `errors` metric after the call. -/
def process_modal (doctor now : String) (env : ModalEnv) (errors : Nat) :
    List Appointment × Nat :=
  match process_modal_body doctor now env with
  | .ok apts => (apts, errors)
  | .error _ => ([], errors + 1)

/-- The per-trigger loop of `run` (lines 781-787): process each modal in
order, extending the run-level appointment sequence; a trigger whose
processing failed contributes nothing and the loop continues. -/
def processTriggers (doctor now : String) :
    List ModalEnv → List Appointment → Nat → List Appointment × Nat
  | [], apts, errors => (apts, errors)
  | env :: rest, apts, errors =>
    let r := process_modal doctor now env errors
    processTriggers doctor now rest (apts ++ r.1) r.2

/-- Outcome of one call of the operation passed to the retry executor:
either a returned value or a raised exception with its message. -/
inductive Outcome (α : Type) where
  | ok : α → Outcome α
  | err : String → Outcome α
deriving DecidableEq, Repr

/-- Whether an outcome is a raised exception. -/
def Outcome.isErr : Outcome α → Bool
  | .ok _ => false
  | .err _ => true

/-- Observable state threaded through `_retry_with_backoff`: the
`retries` metric counter and the sequence of `time.sleep` delays
performed, in order. -/
structure RetryState where
  retries : Nat
  sleeps : List Nat
deriving DecidableEq, Repr

/-- The loop of `_retry_with_backoff` (lines 271-290), with the attempt
counter made explicit.  `op i` is the outcome of the `i`-th call of the
wrapped function.  `remaining` is the number of loop iterations left
(`max_retries - attempt`), used as structural fuel.  On success the value
is returned; on a failed attempt the retry metric is incremented, and if
more attempts remain a sleep of `baseDelay * 2 ^ attempt` is performed
before the next iteration.  After the loop, the last exception is
re-raised (`.error (some e)`); `.error none` models the degenerate
`raise None` when the loop never ran. -/
def retryGo (op : Nat → Outcome α) (maxRetries baseDelay : Nat) :
    Nat → Nat → Option String → RetryState → Except (Option String) α × RetryState
  | _, 0, lastExc, st => (.error lastExc, st)
  | attempt, remaining + 1, _, st =>
    match op attempt with
    | .ok v => (.ok v, st)
    | .err e =>
      let st1 : RetryState := { st with retries := st.retries + 1 }
      if attempt < maxRetries - 1 then
        retryGo op maxRetries baseDelay (attempt + 1) remaining (some e)
          { st1 with sleeps := st1.sleeps ++ [baseDelay * 2 ^ attempt] }
      else
        retryGo op maxRetries baseDelay (attempt + 1) remaining (some e) st1

/-- The executor `_retry_with_backoff(func, max_retries=maxRetries)`
with `Config.RETRY_DELAY = baseDelay`: run the loop from attempt 0 with
`maxRetries` iterations of fuel. -/
def retry_with_backoff (op : Nat → Outcome α) (maxRetries baseDelay : Nat)
    (st : RetryState) : Except (Option String) α × RetryState :=
  retryGo op maxRetries baseDelay 0 maxRetries none st

/-- A resolved proxy configuration dict (`server`, `username`,
`password`). -/
structure ProxyConfig where
  server : String
  username : String
  password : String
deriving DecidableEq, Repr

/-- The configuration fields `_get_proxy_config` and `run` read. -/
structure ScraperConfig where
  proxyEnabled : Bool
  proxyServer : String
  proxyUsername : String
  proxyPassword : String
  proxyBackupList : List String
deriving DecidableEq, Repr

/-- The primary proxy dict returned at lines 246-250. -/
def primaryProxy (cfg : ScraperConfig) : ProxyConfig :=
  { server := cfg.proxyServer
    username := cfg.proxyUsername
    password := cfg.proxyPassword }

/-- The resolver `_get_proxy_config(use_backup, backup_index)`
(lines 218-250):
`none` ("no proxy") when proxying is disabled; otherwise, when asked for
a backup with an in-range index, split the stored `ip:port:user:pass`
string on `:` and build the backup dict only when there are exactly four
fields, falling through to the primary dict otherwise. -/
def get_proxy_config (cfg : ScraperConfig) (useBackup : Bool)
    (backupIndex : Nat) : Option ProxyConfig :=
  if !cfg.proxyEnabled then none
  else if h : useBackup ∧ backupIndex < cfg.proxyBackupList.length then
    let proxyStr := cfg.proxyBackupList.get ⟨backupIndex, h.2⟩
    let parts := proxyStr.splitOn ":"
    if hp : parts.length = 4 then
      some { server := "http://" ++ parts.get ⟨0, by omega⟩ ++ ":" ++ parts.get ⟨1, by omega⟩
             username := parts.get ⟨2, by omega⟩
             password := parts.get ⟨3, by omega⟩ }
    else some (primaryProxy cfg)
  else some (primaryProxy cfg)

/-- The attempt budget `max_proxy_attempts` as computed at line 731. -/
def maxProxyAttempts (cfg : ScraperConfig) : Nat :=
  if cfg.proxyEnabled then 1 + cfg.proxyBackupList.length else 1

/-- The proxy resolved for top-level proxy attempt `k` (lines 736-738):
attempt 0 uses the primary path, attempt `k > 0` asks for backup
`k - 1`. -/
def endpointForAttempt (cfg : ScraperConfig) (k : Nat) : Option ProxyConfig :=
  get_proxy_config cfg (decide (0 < k)) (if 0 < k then k - 1 else 0)

/-- The `self.metrics` counters (lines 199-204). -/
structure Metrics where
  page_loads : Nat
  retries : Nat
  errors : Nat
  appointments_found : Nat
deriving DecidableEq, Repr

/-- The result dictionary returned by `run`: the success dict of
lines 808-817 or the failure dict of lines 844-850.  Fields absent from
one of the two dicts are `Option`s. -/
structure RunResult where
  success : Bool
  appointments_count : Option Nat
  unique_count : Option Nat
  error_type : Option String
  metrics : Metrics
  proxy_used : Option String
deriving DecidableEq, Repr

/-- What the per-proxy session body (the doctor loop, lines 752-795) did
under one proxy attempt: either it completed, contributing a list of
newly collected appointments, or it raised a scraper error somewhere
inside. -/
inductive SessionEvent where
  | completed : List Appointment → SessionEvent
  | raised : ScraperError → SessionEvent
deriving DecidableEq, Repr

/-- The failure dict of lines 844-850. -/
def failureResult (e : ScraperError) (m : Metrics) : RunResult :=
  { success := false
    appointments_count := none
    unique_count := none
    error_type := some e.typeName
    metrics := m
    proxy_used := none }

/-- Whether an error is caught by the connection-class handler
`except (PageLoadError, ProxyConnectionError)` at line 819. -/
def isConnectionClass : ScraperError → Bool
  | .pageLoadError _ => true
  | .proxyConnectionError _ => true
  | _ => false

/-- The proxy-attempt loop of `run` (lines 733-850), driven by the
session events.  `events k` is what the session body did under proxy
attempt `k`; `apts` is `self.appointments`, which persists across proxy
attempts; `fuel` is the number of remaining loop iterations
(`maxProxyAttempts - attempt`).  A completed body sets the
`appointments_found` metric, fails the run with `DataExtractionError`
when the aggregate sequence is empty, and otherwise returns the success
dict with `proxy_used` naming the attempt's tier.  A connection-class
error advances to the next proxy attempt when one remains and otherwise
becomes the failure dict; any other error becomes the failure dict
immediately (after the debug-artifact side effect, not modelled). -/
def runFrom (cfg : ScraperConfig) (events : Nat → SessionEvent) :
    Nat → Nat → List Appointment → Metrics → RunResult
  | 0, _, _, m => failureResult (.otherError "out of proxy attempts") m
  | fuel + 1, attempt, apts, m =>
    match events attempt with
    | .completed newApts =>
      let apts := apts ++ newApts
      let m := { m with appointments_found := apts.length }
      if apts.length = 0 then
        failureResult (.dataExtractionError "No appointments collected for any doctor") m
      else
        { success := true
          appointments_count := some apts.length
          unique_count := some (apts.map key).dedup.length
          error_type := none
          metrics := m
          proxy_used := some (if 0 < attempt then "backup_" ++ toString attempt else "primary") }
    | .raised e =>
      if isConnectionClass e then
        if attempt < maxProxyAttempts cfg - 1 then
          runFrom cfg events fuel (attempt + 1) apts m
        else failureResult e m
      else failureResult e m

/-- The entry point `run`: start the proxy-attempt loop at attempt 0
with the initial
empty appointment sequence. -/
def run (cfg : ScraperConfig) (events : Nat → SessionEvent) (m : Metrics) :
    RunResult :=
  runFrom cfg events (maxProxyAttempts cfg) 0 [] m

/-! ## Lemmas about the retry executor -/

/-- If the operation fails on attempts `attempt, …, attempt+k-1` and
succeeds on attempt `attempt+k`, which is still within bounds, the loop
returns the success value, adds `k` to the retry metric, and performs
exactly the `k` backoff sleeps for the failed attempts. -/
theorem retryGo_ok (op : Nat → Outcome α) (maxRetries baseDelay : Nat) (v : α) :
    ∀ (k attempt : Nat) (lastExc : Option String) (st : RetryState),
      (∀ i, i < k → (op (attempt + i)).isErr = true) →
      op (attempt + k) = .ok v →
      attempt + k < maxRetries →
      (retryGo op maxRetries baseDelay attempt (maxRetries - attempt) lastExc st).1 = .ok v ∧
      (retryGo op maxRetries baseDelay attempt (maxRetries - attempt) lastExc st).2.retries =
        st.retries + k ∧
      (retryGo op maxRetries baseDelay attempt (maxRetries - attempt) lastExc st).2.sleeps =
        st.sleeps ++ (List.range' attempt k).map (fun i => baseDelay * 2 ^ i) := by
  intro k
  induction k with
  | zero =>
    intro attempt lastExc st _ hok hlt
    have hfuel : maxRetries - attempt = (maxRetries - attempt - 1) + 1 := by omega
    rw [hfuel]
    simp only [retryGo]
    rw [show attempt + 0 = attempt from rfl] at hok
    rw [hok]
    simp
  | succ k ih =>
    intro attempt lastExc st hfail hok hlt
    have hfuel : maxRetries - attempt = (maxRetries - attempt - 1) + 1 := by omega
    rw [hfuel]
    simp only [retryGo]
    have h0 := hfail 0 (by omega)
    rw [show attempt + 0 = attempt from rfl] at h0
    cases hop : op attempt with
    | ok w => rw [hop] at h0; simp [Outcome.isErr] at h0
    | err e =>
      dsimp only
      have hbr : attempt < maxRetries - 1 := by omega
      rw [if_pos hbr]
      have hrec : maxRetries - attempt - 1 = maxRetries - (attempt + 1) := by omega
      rw [hrec]
      have hfail' : ∀ i, i < k → (op (attempt + 1 + i)).isErr = true := by
        intro i hi
        have := hfail (i + 1) (by omega)
        rwa [show attempt + (i + 1) = attempt + 1 + i from by omega] at this
      have hok' : op (attempt + 1 + k) = .ok v := by
        rwa [show attempt + 1 + k = attempt + (k + 1) from by omega]
      have hlt' : attempt + 1 + k < maxRetries := by omega
      obtain ⟨hv, hr, hs⟩ := ih (attempt + 1) (some e)
        { retries := st.retries + 1, sleeps := st.sleeps ++ [baseDelay * 2 ^ attempt] }
        hfail' hok' hlt'
      refine ⟨hv, ?_, ?_⟩
      · rw [hr]; dsimp only; omega
      · rw [hs]
        dsimp only
        rw [List.range'_succ]
        simp [List.append_assoc]

/-- If the operation fails on every attempt from `attempt` up to
`maxRetries`, the loop raises and adds one retry per failed attempt —
including the final exhausting one. -/
theorem retryGo_allFail (op : Nat → Outcome α) (maxRetries baseDelay : Nat) :
    ∀ (k attempt : Nat) (lastExc : Option String) (st : RetryState),
      (∀ i, i < k → (op (attempt + i)).isErr = true) →
      attempt + k = maxRetries →
      ((retryGo op maxRetries baseDelay attempt k lastExc st).1.isOk = false) ∧
      (retryGo op maxRetries baseDelay attempt k lastExc st).2.retries =
        st.retries + k := by
  intro k
  induction k with
  | zero =>
    intro attempt lastExc st _ _
    simp [retryGo, Except.isOk, Except.toBool]
  | succ k ih =>
    intro attempt lastExc st hfail hend
    simp only [retryGo]
    have h0 := hfail 0 (by omega)
    rw [show attempt + 0 = attempt from rfl] at h0
    cases hop : op attempt with
    | ok w => rw [hop] at h0; simp [Outcome.isErr] at h0
    | err e =>
      dsimp only
      have hfail' : ∀ i, i < k → (op (attempt + 1 + i)).isErr = true := by
        intro i hi
        have := hfail (i + 1) (by omega)
        rwa [show attempt + (i + 1) = attempt + 1 + i from by omega] at this
      have hend' : attempt + 1 + k = maxRetries := by omega
      by_cases hbr : attempt < maxRetries - 1
      · rw [if_pos hbr]
        have h2 := ih (attempt + 1) (some e)
          { retries := st.retries + 1,
            sleeps := st.sleeps ++ [baseDelay * 2 ^ attempt] } hfail' hend'
        refine ⟨h2.1, ?_⟩
        rw [h2.2]
        dsimp only
        omega
      · rw [if_neg hbr]
        have h2 := ih (attempt + 1) (some e) { st with retries := st.retries + 1 }
          hfail' hend'
        refine ⟨h2.1, ?_⟩
        rw [h2.2]
        dsimp only
        omega

/-- C3: an operation failing `k < maxAttempts` times and then succeeding
makes the retry executor return the success value, and the executor
sleeps exactly `k` times, the `i`-th sleep (0-based) lasting
`baseDelay * 2 ^ i`; no sleep precedes the first attempt and no sleep
follows the final failing attempt, since the recorded sleep sequence is
exactly the `k` inter-attempt delays. -/
theorem C3_retry_success_and_backoff (op : Nat → Outcome α)
    (maxRetries baseDelay k : Nat) (v : α) (st : RetryState)
    (hfail : ∀ i, i < k → (op i).isErr = true)
    (hok : op k = .ok v)
    (hk : k < maxRetries) :
    (retry_with_backoff op maxRetries baseDelay st).1 = .ok v ∧
    (retry_with_backoff op maxRetries baseDelay st).2.sleeps =
      st.sleeps ++ (List.range k).map (fun i => baseDelay * 2 ^ i) := by
  have h := retryGo_ok op maxRetries baseDelay v k 0 none st
    (fun i hi => by rw [Nat.zero_add]; exact hfail i hi)
    (by rwa [Nat.zero_add]) (by omega)
  rw [Nat.sub_zero] at h
  refine ⟨h.1, ?_⟩
  rw [retry_with_backoff, h.2.2, List.range_eq_range']

/-- Witness for C3 at a concrete operation failing twice with base delay
5 and three allowed attempts. -/
theorem C3_witness :
    (retry_with_backoff (fun i => if i < 2 then Outcome.err "boom" else Outcome.ok 42)
        3 5 ⟨0, []⟩).1 = .ok 42 ∧
    (retry_with_backoff (fun i => if i < 2 then Outcome.err "boom" else Outcome.ok 42)
        3 5 ⟨0, []⟩).2.sleeps =
      [] ++ (List.range 2).map (fun i => 5 * 2 ^ i) :=
  C3_retry_success_and_backoff
    (fun i => if i < 2 then Outcome.err "boom" else Outcome.ok 42)
    3 5 2 42 ⟨0, []⟩ (by decide) (by decide) (by decide)

/-- C10: the retry executor increments the retries metric on every
failed attempt, including the final exhausting one: failing all
`maxAttempts` attempts adds exactly `maxAttempts` to the counter, and
failing `k < maxAttempts` times before succeeding adds exactly `k`. -/
theorem C10_retry_metric_counts_every_failure (op : Nat → Outcome α)
    (maxRetries baseDelay k : Nat) (v : α) (st : RetryState) :
    ((∀ i, i < maxRetries → (op i).isErr = true) →
      (retry_with_backoff op maxRetries baseDelay st).2.retries =
        st.retries + maxRetries)
  ∧ (k < maxRetries → (∀ i, i < k → (op i).isErr = true) → op k = .ok v →
      (retry_with_backoff op maxRetries baseDelay st).2.retries =
        st.retries + k) := by
  constructor
  · intro hall
    have h := retryGo_allFail op maxRetries baseDelay maxRetries 0 none st
      (fun i hi => by rw [Nat.zero_add]; exact hall i hi) (by rw [Nat.zero_add])
    exact h.2
  · intro hk hfail hok
    have h := retryGo_ok op maxRetries baseDelay v k 0 none st
      (fun i hi => by rw [Nat.zero_add]; exact hfail i hi)
      (by rwa [Nat.zero_add]) (by omega)
    rw [Nat.sub_zero] at h
    exact h.2.1

/-! ## Lemmas about modal extraction -/

/-- C1: the claim (and the repository's own test
`test_recovery_from_malformed_timeslot`) says an entry with an empty
trimmed time label is skipped; the production extraction loop has no
such check.  Evaluated at the test's input — an empty timeslot anchor
next to a `10:00 am` one under the `Mon, Jan 26` wrapper — the code
emits two appointments, the first with an empty time label, so the
output does not contain only appointments with non-empty time labels. -/
theorem C1_empty_time_label_not_skipped :
    extract_appointments_from_modal "Dr. Michael Ayzin, DDS" "t"
        [⟨"", some (some "Mon, Jan 26")⟩, ⟨"10:00 am", some (some "Mon, Jan 26")⟩] =
      [⟨"Dr. Michael Ayzin, DDS", "Mon, Jan 26", "", "Mon, Jan 26 ", "t"⟩,
       ⟨"Dr. Michael Ayzin, DDS", "Mon, Jan 26", "10:00 am", "Mon, Jan 26 10:00 am", "t"⟩] ∧
    ¬ (∀ a ∈ extract_appointments_from_modal "Dr. Michael Ayzin, DDS" "t"
        [⟨"", some (some "Mon, Jan 26")⟩, ⟨"10:00 am", some (some "Mon, Jan 26")⟩],
        a.time ≠ "") := by
  decide

/-- Every appointment built by the extraction loop has the composite
datetime label `date ++ " " ++ time`. -/
theorem extract_datetime (doctor now : String) (slots : List Timeslot) :
    ∀ a ∈ extract_appointments_from_modal doctor now slots,
      a.datetime = a.date ++ " " ++ a.time := by
  intro a ha
  rw [extract_appointments_from_modal] at ha
  split at ha
  · cases ha
  · obtain ⟨t, _, rfl⟩ := List.mem_map.mp ha
    rfl

/-- Membership in the "show more" merge loop output comes from the
accumulator or from the second batch. -/
theorem dedupAppend_subset (existing : List (String × String)) :
    ∀ (l acc : List Appointment) (a : Appointment),
      a ∈ dedupAppend existing acc l → a ∈ acc ∨ a ∈ l := by
  intro l
  induction l with
  | nil =>
    intro acc a ha
    rw [dedupAppend] at ha
    exact Or.inl ha
  | cons apt rest ih =>
    intro acc a ha
    rw [dedupAppend] at ha
    split at ha
    · rcases ih acc a ha with h | h
      · exact Or.inl h
      · exact Or.inr (List.mem_cons_of_mem _ h)
    · rcases ih (acc ++ [apt]) a ha with h | h
      · rcases List.mem_append.mp h with h' | h'
        · exact Or.inl h'
        · rw [List.mem_singleton] at h'
          subst h'
          exact Or.inr (List.mem_cons_self _ _)
      · exact Or.inr (List.mem_cons_of_mem _ h)

/-- Every appointment returned by a successful modal-processing body
comes out of the extraction loop (directly or through the "show more"
merge). -/
theorem process_modal_body_datetime (doctor now : String) (env : ModalEnv)
    (apts : List Appointment)
    (h : process_modal_body doctor now env = .ok apts) :
    ∀ a ∈ apts, a.datetime = a.date ++ " " ++ a.time := by
  intro a ha
  rw [process_modal_body] at h
  cases hfind : findContainerSlots env.firstPage with
  | error e =>
    rw [hfind] at h
    cases h
  | ok slots =>
    rw [hfind] at h
    dsimp only at h
    split at h
    · cases hsnd : env.secondPage.viewContainer with
      | some slots2 =>
        rw [hsnd] at h
        dsimp only at h
        injection h with h'
        subst h'
        rcases dedupAppend_subset _ _ _ a ha with hmem | hmem
        · exact extract_datetime doctor now slots a hmem
        · exact extract_datetime doctor now slots2 a hmem
      | none =>
        rw [hsnd] at h
        dsimp only at h
        injection h with h'
        subst h'
        exact extract_datetime doctor now slots a ha
    · injection h with h'
      subst h'
      exact extract_datetime doctor now slots a ha

/-- C5: every appointment emitted by modal processing satisfies
`datetime = date ++ " " ++ time`, with exactly the one-space
separator. -/
theorem C5_datetime_composite (doctor now : String) (env : ModalEnv)
    (errors : Nat) :
    ∀ a ∈ (process_modal doctor now env errors).1,
      a.datetime = a.date ++ " " ++ a.time := by
  intro a ha
  rw [process_modal] at ha
  cases hbody : process_modal_body doctor now env with
  | error e =>
    rw [hbody] at ha
    cases ha
  | ok apts =>
    rw [hbody] at ha
    exact process_modal_body_datetime doctor now env apts hbody a ha

/-- Witness for C5 at a concrete modal containing one timeslot without
a date wrapper. -/
theorem C5_witness :
    (⟨"d", "Unknown Date", "9:30 am", "Unknown Date 9:30 am", "t"⟩ :
        Appointment).datetime =
      (⟨"d", "Unknown Date", "9:30 am", "Unknown Date 9:30 am", "t"⟩ :
        Appointment).date ++ " " ++
      (⟨"d", "Unknown Date", "9:30 am", "Unknown Date 9:30 am", "t"⟩ :
        Appointment).time :=
  C5_datetime_composite "d" "t"
    ⟨⟨some [⟨"9:30 am", none⟩], none, false, []⟩, false, ⟨none, none, false, []⟩⟩ 0
    ⟨"d", "Unknown Date", "9:30 am", "Unknown Date 9:30 am", "t"⟩ (by decide)

/-! ## Lemmas about the cleaned export and the "show more" merge -/

/-- The cleaned-export pass only drops elements: its output is a
sublist of the input, so relative order is preserved. -/
theorem dropDuplicatesGo_sublist :
    ∀ (l : List Appointment) (seen : List (String × String)),
      List.Sublist (dropDuplicatesGo seen l) l := by
  intro l
  induction l with
  | nil =>
    intro seen
    rw [dropDuplicatesGo]
  | cons b rest ih =>
    intro seen
    rw [dropDuplicatesGo]
    split
    · exact List.Sublist.cons b (ih seen)
    · exact List.Sublist.cons₂ b (ih (key b :: seen))

/-- Every element kept by the cleaned-export pass has a key outside the
already-seen set and is the first element of the remaining input with
its key. -/
theorem dropDuplicatesGo_first_seen :
    ∀ (l : List Appointment) (seen : List (String × String)) (a : Appointment),
      a ∈ dropDuplicatesGo seen l →
      key a ∉ seen ∧ l.find? (fun x => key x == key a) = some a := by
  intro l
  induction l with
  | nil =>
    intro seen a ha
    rw [dropDuplicatesGo] at ha
    cases ha
  | cons b rest ih =>
    intro seen a ha
    rw [dropDuplicatesGo] at ha
    split at ha
    case isTrue hb =>
      obtain ⟨hnot, hfind⟩ := ih seen a ha
      refine ⟨hnot, ?_⟩
      have hne : (key b == key a) = false := by
        rw [beq_eq_false_iff_ne]
        intro hEq
        exact hnot (hEq ▸ hb)
      rw [List.find?_cons_of_neg _ (by simp [hne]), hfind]
    case isFalse hb =>
      rcases List.mem_cons.mp ha with heq | hmem
      · subst heq
        exact ⟨hb, List.find?_cons_of_pos _ (by simp)⟩
      · obtain ⟨hnot, hfind⟩ := ih (key b :: seen) a hmem
        have hba : (key b == key a) = false := by
          rw [beq_eq_false_iff_ne]
          intro hEq
          exact hnot (hEq ▸ List.mem_cons_self _ _)
        refine ⟨fun hseen => hnot (List.mem_cons_of_mem _ hseen), ?_⟩
        rw [List.find?_cons_of_neg _ (by simp [hba]), hfind]

/-- Every input element's key is either already in the seen set or
represented in the cleaned-export output. -/
theorem dropDuplicatesGo_covers :
    ∀ (l : List Appointment) (seen : List (String × String)) (a : Appointment),
      a ∈ l →
      key a ∈ seen ∨ ∃ b ∈ dropDuplicatesGo seen l, key b = key a := by
  intro l
  induction l with
  | nil =>
    intro seen a ha
    cases ha
  | cons b rest ih =>
    intro seen a ha
    rw [dropDuplicatesGo]
    split
    case isTrue hb =>
      rcases List.mem_cons.mp ha with heq | hmem
      · subst heq
        exact Or.inl hb
      · exact ih seen a hmem
    case isFalse hb =>
      rcases List.mem_cons.mp ha with heq | hmem
      · subst heq
        exact Or.inr ⟨a, List.mem_cons_self _ _, rfl⟩
      · rcases ih (key b :: seen) a hmem with hseen | ⟨c, hc, hkey⟩
        · rcases List.mem_cons.mp hseen with h1 | h2
          · exact Or.inr ⟨b, List.mem_cons_self _ _, h1.symm⟩
          · exact Or.inl h2
        · exact Or.inr ⟨c, List.mem_cons_of_mem _ hc, hkey⟩

/-- The cleaned-export output never contains two entries with the same
`(date, time)` key. -/
theorem dropDuplicatesGo_nodup :
    ∀ (l : List Appointment) (seen : List (String × String)),
      ((dropDuplicatesGo seen l).map key).Nodup := by
  intro l
  induction l with
  | nil =>
    intro seen
    rw [dropDuplicatesGo]
    exact List.nodup_nil
  | cons b rest ih =>
    intro seen
    rw [dropDuplicatesGo]
    split
    · exact ih seen
    case isFalse hb =>
      rw [List.map_cons, List.nodup_cons]
      refine ⟨?_, ih (key b :: seen)⟩
      intro hmem
      obtain ⟨c, hc, hkey⟩ := List.mem_map.mp hmem
      exact (dropDuplicatesGo_first_seen rest (key b :: seen) c hc).1
        (hkey ▸ List.mem_cons_self _ _)

/-- C6: the cleaned export view is a sublist of the raw sequence (so
kept entries stay in original relative order), every kept entry is the
first-seen appointment for its `(date, time)` key, every key occurring
in the raw sequence is still represented, and no key occurs twice —
subsequent appointments with an already-seen key are dropped. -/
theorem C6_cleaned_export (apts : List Appointment) :
    List.Sublist (cleanedView apts) apts
  ∧ (∀ a ∈ cleanedView apts, apts.find? (fun x => key x == key a) = some a)
  ∧ (∀ a ∈ apts, ∃ b ∈ cleanedView apts, key b = key a)
  ∧ ((cleanedView apts).map key).Nodup := by
  refine ⟨dropDuplicatesGo_sublist apts [], ?_, ?_, dropDuplicatesGo_nodup apts []⟩
  · intro a ha
    exact (dropDuplicatesGo_first_seen apts [] a ha).2
  · intro a ha
    rcases dropDuplicatesGo_covers apts [] a ha with h | h
    · cases h
    · exact h

/-- Witness for C6: in a concrete three-element sequence with a
duplicated key, the kept later entry is the first occurrence of its own
key. -/
theorem C6_witness :
    ([⟨"a", "D", "T", "D T", "1"⟩, ⟨"b", "D", "T", "D T", "2"⟩,
        ⟨"a", "D2", "T", "D2 T", "3"⟩] : List Appointment).find?
      (fun x => key x == key ⟨"a", "D2", "T", "D2 T", "3"⟩) =
      some ⟨"a", "D2", "T", "D2 T", "3"⟩ :=
  (C6_cleaned_export
      [⟨"a", "D", "T", "D T", "1"⟩, ⟨"b", "D", "T", "D T", "2"⟩,
       ⟨"a", "D2", "T", "D2 T", "3"⟩]).2.1
    ⟨"a", "D2", "T", "D2 T", "3"⟩ (by decide)

/-- The "show more" merge loop is append-plus-filter: the accumulator
followed by exactly those new entries whose key is not in the fixed
`existing` set. -/
theorem dedupAppend_eq_append_filter (existing : List (String × String)) :
    ∀ (l acc : List Appointment),
      dedupAppend existing acc l =
        acc ++ l.filter (fun a => decide (key a ∉ existing)) := by
  intro l
  induction l with
  | nil =>
    intro acc
    rw [dedupAppend]
    simp
  | cons apt rest ih =>
    intro acc
    rw [dedupAppend]
    split
    case isTrue hmem =>
      rw [ih acc, List.filter_cons]
      simp [hmem]
    case isFalse hmem =>
      rw [ih (acc ++ [apt]), List.filter_cons]
      simp [hmem]

/-- C7: the merged per-trigger output is the initial batch followed by
exactly those second-batch entries whose `(date, time)` key is not
already present in the initial batch; in the concrete scenario with an
initial batch `{9:30 am, 10:00 am}` and a second batch
`{9:30 am, 11:00 am}` the merge appends exactly the one new `11:00 am`
entry. -/
theorem C7_show_more_merge (initial second : List Appointment) :
    mergeShowMore initial second =
      initial ++ second.filter (fun a => decide (key a ∉ initial.map key)) ∧
    mergeShowMore
        [⟨"d", "Mon, Jan 26", "9:30 am", "Mon, Jan 26 9:30 am", "t"⟩,
         ⟨"d", "Mon, Jan 26", "10:00 am", "Mon, Jan 26 10:00 am", "t"⟩]
        [⟨"d", "Mon, Jan 26", "9:30 am", "Mon, Jan 26 9:30 am", "t2"⟩,
         ⟨"d", "Mon, Jan 26", "11:00 am", "Mon, Jan 26 11:00 am", "t2"⟩] =
      [⟨"d", "Mon, Jan 26", "9:30 am", "Mon, Jan 26 9:30 am", "t"⟩,
       ⟨"d", "Mon, Jan 26", "10:00 am", "Mon, Jan 26 10:00 am", "t"⟩,
       ⟨"d", "Mon, Jan 26", "11:00 am", "Mon, Jan 26 11:00 am", "t2"⟩] := by
  constructor
  · rw [mergeShowMore]
    exact dedupAppend_eq_append_filter (initial.map key) second initial
  · decide

/-! ## The modal-processing error boundary -/

/-- C2 counterexample: at a page snapshot with neither container nor any
timeslot marker, the modal-processing body raises the
container-not-found failure, yet the trigger loop merely skips the
trigger — the next trigger is still processed and contributes its
appointment, the error metric is incremented, and a run whose session
body completes with that appointment ends in success, not failure. -/
theorem C2_counterexample :
    process_modal_body "Dr. Michael Ayzin, DDS" "t"
        ⟨⟨none, none, false, []⟩, false, ⟨none, none, false, []⟩⟩ =
      .error (.modalNotFoundError "Modal container not found in page") ∧
    processTriggers "Dr. Michael Ayzin, DDS" "t"
        [⟨⟨none, none, false, []⟩, false, ⟨none, none, false, []⟩⟩,
         ⟨⟨some [⟨"9:30 am", none⟩], none, false, []⟩, false,
          ⟨none, none, false, []⟩⟩] [] 0 =
      ([⟨"Dr. Michael Ayzin, DDS", "Unknown Date", "9:30 am",
         "Unknown Date 9:30 am", "t"⟩], 1) ∧
    (run ⟨false, "s", "u", "p", []⟩
        (fun _ => .completed
          [⟨"Dr. Michael Ayzin, DDS", "Unknown Date", "9:30 am",
            "Unknown Date 9:30 am", "t"⟩])
        ⟨0, 0, 1, 0⟩).success = true := by
  refine ⟨rfl, by decide, rfl⟩

/-- C2 (amended): a container-not-found failure raised while processing
a trigger's modal is caught at the modal-processing boundary: the error
metric is incremented, the trigger contributes an empty list, and the
trigger loop continues with the remaining triggers instead of ending
the run. -/
theorem C2_container_failure_skips_trigger (doctor now : String)
    (env : ModalEnv) (rest : List ModalEnv) (apts : List Appointment)
    (errors : Nat) (msg : String)
    (h : process_modal_body doctor now env = .error (.modalNotFoundError msg)) :
    process_modal doctor now env errors = ([], errors + 1) ∧
    processTriggers doctor now (env :: rest) apts errors =
      processTriggers doctor now rest apts (errors + 1) := by
  have h1 : process_modal doctor now env errors = ([], errors + 1) := by
    rw [process_modal, h]
  refine ⟨h1, ?_⟩
  rw [processTriggers]
  rw [h1]
  simp

/-- Witness for C2 at a concrete modal environment with no container
and no timeslot marker. -/
theorem C2_witness :
    process_modal "d" "t"
        ⟨⟨none, none, false, []⟩, false, ⟨none, none, false, []⟩⟩ 5 = ([], 5 + 1) ∧
    processTriggers "d" "t"
        (⟨⟨none, none, false, []⟩, false, ⟨none, none, false, []⟩⟩ :: []) [] 5 =
      processTriggers "d" "t" [] [] (5 + 1) :=
  C2_container_failure_skips_trigger "d" "t"
    ⟨⟨none, none, false, []⟩, false, ⟨none, none, false, []⟩⟩ [] [] 5
    "Modal container not found in page" rfl

/-! ## Lemmas about the proxy failover controller -/

/-- C4: with proxying disabled the controller allows exactly one
top-level attempt and resolves every attempt to "no proxy"; with
proxying enabled and `N` configured backups it allows `1 + N` attempts,
attempt 0 resolves to the primary endpoint, attempt `k > 0` resolves to
`backups[k-1]` parsed from the flat `ip:port:user:pass` encoding, and a
malformed backup entry (not exactly 4 `:`-separated fields) falls
through to the primary endpoint. -/
theorem C4_proxy_failover (cfg : ScraperConfig) (k : Nat) :
    (cfg.proxyEnabled = false →
        maxProxyAttempts cfg = 1 ∧ endpointForAttempt cfg k = none)
  ∧ (cfg.proxyEnabled = true →
        maxProxyAttempts cfg = 1 + cfg.proxyBackupList.length
      ∧ endpointForAttempt cfg 0 = some (primaryProxy cfg)
      ∧ (0 < k → k - 1 < cfg.proxyBackupList.length →
          ((((cfg.proxyBackupList.getD (k - 1) "").splitOn ":").length = 4 →
              endpointForAttempt cfg k = some
                { server := "http://" ++
                      ((cfg.proxyBackupList.getD (k - 1) "").splitOn ":").getD 0 ""
                      ++ ":" ++ ((cfg.proxyBackupList.getD (k - 1) "").splitOn ":").getD 1 ""
                  username := ((cfg.proxyBackupList.getD (k - 1) "").splitOn ":").getD 2 ""
                  password := ((cfg.proxyBackupList.getD (k - 1) "").splitOn ":").getD 3 "" })
          ∧ (((cfg.proxyBackupList.getD (k - 1) "").splitOn ":").length ≠ 4 →
              endpointForAttempt cfg k = some (primaryProxy cfg))))) := by
  constructor
  · intro hdis
    constructor
    · simp [maxProxyAttempts, hdis]
    · simp [endpointForAttempt, get_proxy_config, hdis]
  · intro hen
    refine ⟨by simp [maxProxyAttempts, hen], ?_, ?_⟩
    · simp [endpointForAttempt, get_proxy_config, hen]
    · intro hk hlt
      have hget : cfg.proxyBackupList.getD (k - 1) "" =
          cfg.proxyBackupList.get ⟨k - 1, hlt⟩ :=
        List.getD_eq_get cfg.proxyBackupList "" hlt
      have hres : endpointForAttempt cfg k =
          (if ((cfg.proxyBackupList.get ⟨k - 1, hlt⟩).splitOn ":").length = 4 then
            some { server := ("http://" ++
                     ((cfg.proxyBackupList.get ⟨k - 1, hlt⟩).splitOn ":").getD 0 ""
                     ++ ":" ++ ((cfg.proxyBackupList.get ⟨k - 1, hlt⟩).splitOn ":").getD 1 ""),
                   username := ((cfg.proxyBackupList.get ⟨k - 1, hlt⟩).splitOn ":").getD 2 "",
                   password := ((cfg.proxyBackupList.get ⟨k - 1, hlt⟩).splitOn ":").getD 3 "" }
          else some (primaryProxy cfg)) := by
        rw [endpointForAttempt, if_pos hk]
        rw [get_proxy_config]
        rw [if_neg (by simp [hen])]
        rw [dif_pos ⟨by simp [hk], hlt⟩]
        by_cases h4 : ((cfg.proxyBackupList.get ⟨k - 1, hlt⟩).splitOn ":").length = 4
        · rw [dif_pos h4, if_pos h4]
          congr 1
          have h0 := List.getD_eq_get ((cfg.proxyBackupList.get ⟨k - 1, hlt⟩).splitOn ":")
            "" (show 0 < _ from by omega)
          have h1 := List.getD_eq_get ((cfg.proxyBackupList.get ⟨k - 1, hlt⟩).splitOn ":")
            "" (show 1 < _ from by omega)
          have h2 := List.getD_eq_get ((cfg.proxyBackupList.get ⟨k - 1, hlt⟩).splitOn ":")
            "" (show 2 < _ from by omega)
          have h3 := List.getD_eq_get ((cfg.proxyBackupList.get ⟨k - 1, hlt⟩).splitOn ":")
            "" (show 3 < _ from by omega)
          rw [h0, h1, h2, h3]
        · rw [dif_neg h4, if_neg h4]
      rw [hget]
      constructor
      · intro h4
        rw [hres, if_pos h4]
      · intro h4
        rw [hres, if_neg h4]

/-- Witness for C4 at a concrete enabled configuration with one
well-formed and one malformed backup entry. -/
theorem C4_witness :
    ((⟨true, "http://p:1", "u", "pw", ["1.2.3.4:8080:bu:bp", "bad"]⟩ :
        ScraperConfig).proxyEnabled = true →
      maxProxyAttempts ⟨true, "http://p:1", "u", "pw", ["1.2.3.4:8080:bu:bp", "bad"]⟩ =
        1 + (["1.2.3.4:8080:bu:bp", "bad"] : List String).length
      ∧ endpointForAttempt ⟨true, "http://p:1", "u", "pw", ["1.2.3.4:8080:bu:bp", "bad"]⟩ 0 =
          some (primaryProxy ⟨true, "http://p:1", "u", "pw", ["1.2.3.4:8080:bu:bp", "bad"]⟩)
      ∧ (0 < 1 → 1 - 1 < (["1.2.3.4:8080:bu:bp", "bad"] : List String).length →
          ((((["1.2.3.4:8080:bu:bp", "bad"].getD (1 - 1) "").splitOn ":").length = 4 →
              endpointForAttempt ⟨true, "http://p:1", "u", "pw",
                  ["1.2.3.4:8080:bu:bp", "bad"]⟩ 1 = some
                { server := "http://" ++
                      (((["1.2.3.4:8080:bu:bp", "bad"].getD (1 - 1) "").splitOn ":").getD 0 "")
                      ++ ":" ++
                      (((["1.2.3.4:8080:bu:bp", "bad"].getD (1 - 1) "").splitOn ":").getD 1 "")
                  username := ((["1.2.3.4:8080:bu:bp", "bad"].getD (1 - 1) "").splitOn ":").getD 2 ""
                  password := ((["1.2.3.4:8080:bu:bp", "bad"].getD (1 - 1) "").splitOn ":").getD 3 "" })
          ∧ (((["1.2.3.4:8080:bu:bp", "bad"].getD (1 - 1) "").splitOn ":").length ≠ 4 →
              endpointForAttempt ⟨true, "http://p:1", "u", "pw",
                  ["1.2.3.4:8080:bu:bp", "bad"]⟩ 1 =
                some (primaryProxy ⟨true, "http://p:1", "u", "pw",
                  ["1.2.3.4:8080:bu:bp", "bad"]⟩))))) :=
  (C4_proxy_failover ⟨true, "http://p:1", "u", "pw", ["1.2.3.4:8080:bu:bp", "bad"]⟩ 1).2

/-! ## Lemmas about the run loop -/

/-- C8: when the session body completes the whole target loop with zero
appointments collected — even without any trigger raising — the run
returns the failure dict carrying the `DataExtractionError` kind and
metrics whose `appointments_found` counter is zero. -/
theorem C8_zero_appointments_failure (cfg : ScraperConfig)
    (events : Nat → SessionEvent) (m : Metrics)
    (h : events 0 = .completed []) :
    run cfg events m =
      failureResult
        (.dataExtractionError "No appointments collected for any doctor")
        { m with appointments_found := 0 } := by
  rw [run]
  have hfuel : maxProxyAttempts cfg = (maxProxyAttempts cfg - 1) + 1 := by
    rw [maxProxyAttempts]
    split <;> omega
  rw [hfuel, runFrom, h]
  simp

/-- Witness for C8 at a concrete run whose only session attempt
completes with zero appointments. -/
theorem C8_witness :
    run ⟨false, "s", "u", "p", []⟩ (fun _ => .completed []) ⟨2, 3, 4, 7⟩ =
      failureResult
        (.dataExtractionError "No appointments collected for any doctor")
        ⟨2, 3, 4, 0⟩ :=
  C8_zero_appointments_failure ⟨false, "s", "u", "p", []⟩
    (fun _ => .completed []) ⟨2, 3, 4, 7⟩ rfl

/-- C9: when the session body raises a connection-class navigation
failure under the primary proxy and at least one backup proxy is
configured, the run restarts the target loop under the first backup
proxy; if that attempt completes with a non-empty appointment sequence,
the result is a success reporting `proxy_used = "backup_1"`. -/
theorem C9_backup_proxy_success (cfg : ScraperConfig)
    (events : Nat → SessionEvent) (m : Metrics) (msg : String)
    (apts : List Appointment)
    (hen : cfg.proxyEnabled = true)
    (hN : 1 ≤ cfg.proxyBackupList.length)
    (h0 : events 0 = .raised (.pageLoadError msg))
    (h1 : events 1 = .completed apts)
    (hne : apts ≠ []) :
    (run cfg events m).success = true ∧
    (run cfg events m).proxy_used = some "backup_1" := by
  have hmax : maxProxyAttempts cfg = cfg.proxyBackupList.length + 1 := by
    rw [maxProxyAttempts, if_pos hen]
    omega
  have hres : run cfg events m =
      runFrom cfg events (cfg.proxyBackupList.length - 1 + 1) 1 [] m := by
    have hlen : cfg.proxyBackupList.length + 1 =
        (cfg.proxyBackupList.length - 1 + 1) + 1 := by omega
    rw [run, hmax, hlen, runFrom, h0]
    dsimp only [isConnectionClass]
    rw [if_pos rfl, if_pos (by rw [hmax]; omega)]
  rw [hres, runFrom, h1]
  dsimp only
  rw [List.nil_append]
  rw [if_neg (by simpa [List.length_eq_zero] using hne)]
  constructor
  · rfl
  · dsimp only
    rw [if_pos (by omega)]
    rfl

/-- Witness for C9 at a concrete configuration with one backup proxy,
a primary attempt failing with a page-load error and a backup attempt
collecting one appointment. -/
theorem C9_witness :
    (run ⟨true, "s", "u", "p", ["1.2.3.4:8080:bu:bp"]⟩
        (fun k => if k = 0 then .raised (.pageLoadError "x")
          else .completed [⟨"d", "D", "T", "D T", "now"⟩]) ⟨0, 0, 0, 0⟩).success =
      true ∧
    (run ⟨true, "s", "u", "p", ["1.2.3.4:8080:bu:bp"]⟩
        (fun k => if k = 0 then .raised (.pageLoadError "x")
          else .completed [⟨"d", "D", "T", "D T", "now"⟩]) ⟨0, 0, 0, 0⟩).proxy_used =
      some "backup_1" :=
  C9_backup_proxy_success ⟨true, "s", "u", "p", ["1.2.3.4:8080:bu:bp"]⟩
    (fun k => if k = 0 then .raised (.pageLoadError "x")
      else .completed [⟨"d", "D", "T", "D T", "now"⟩]) ⟨0, 0, 0, 0⟩ "x"
    [⟨"d", "D", "T", "D T", "now"⟩] rfl (by decide) rfl rfl (by decide)

/-- Witness for C10: three exhausted attempts add 3 retries; two
failures before success add 2 retries. -/
theorem C10_witness :
    (retry_with_backoff (fun _ => (Outcome.err "boom" : Outcome Nat)) 3 5 ⟨1, []⟩).2.retries =
      1 + 3 ∧
    (retry_with_backoff (fun i => if i < 2 then Outcome.err "boom" else Outcome.ok 42)
        3 5 ⟨0, []⟩).2.retries = 0 + 2 :=
  ⟨(C10_retry_metric_counts_every_failure (fun _ => (Outcome.err "boom" : Outcome Nat))
      3 5 0 0 ⟨1, []⟩).1 (by decide),
   (C10_retry_metric_counts_every_failure
      (fun i => if i < 2 then Outcome.err "boom" else Outcome.ok 42)
      3 5 2 42 ⟨0, []⟩).2 (by decide) (by decide) (by decide)⟩

end ZocDoc
